import Mathlib

/-!
Verification development for the EV-shop repository
(`ML_Model_Train`): a shallow embedding in Lean 4 of the synthetic
battery-data generator (`batteryHealth.py`), the feature-preparation and
prediction routines of the battery-health and repair-cost scripts, and
the repair-cost training pipeline (`repairecost.py`,
`train_simplified_model.py`).

Modelling conventions:
* Python floats are modelled as rationals (`ℚ`); `round(x, k)` is
  modelled by `pyRound` (round half to even, Python's tie rule) and
  `int(x)` by `pyInt` (truncation toward zero).
* numpy's global pseudo-random stream is modelled as an explicit state
  (`ℕ`) threaded through the draw functions.  The concrete next-state
  function is an arbitrary deterministic stand-in (the statistical
  distribution of the draws is outside the embedding); every claim that
  depends on the *values* of the draws is stated over an arbitrary
  `Draws` record, quantifying over all possible draw values, with
  hypotheses giving the documented supports of the distributions.
* The fitted gradient-boosting model is opaque to every claim, so it is
  embedded as an arbitrary function from the feature vector to `ℚ`.
-/

namespace EvShop

/-- Round half to even (Python's `round` tie-breaking rule) of a
rational to an integer. -/
def roundHE (q : ℚ) : ℤ :=
  if q - ⌊q⌋ < 1/2 then ⌊q⌋
  else if 1/2 < q - ⌊q⌋ then ⌊q⌋ + 1
  else if ⌊q⌋ % 2 = 0 then ⌊q⌋ else ⌊q⌋ + 1

/-- Python's `round(x, k)`: round to `k` decimal places, ties to even. -/
def pyRound (q : ℚ) (k : ℕ) : ℚ := (roundHE (q * (10:ℚ)^k) : ℚ) / (10:ℚ)^k

/-- Python's `int(x)` on a float: truncation toward zero. -/
def pyInt (q : ℚ) : ℤ := if q < 0 then ⌈q⌉ else ⌊q⌋

/-- Does the character list `s` start with `t`? -/
def charStarts : List Char → List Char → Bool
  | _, [] => true
  | [], _ :: _ => false
  | a :: as, b :: bs => a == b && charStarts as bs

/-- Does `t` occur as a contiguous run inside `s`? -/
def charHasSub : List Char → List Char → Bool
  | [], t => t.isEmpty
  | a :: as, t => charStarts (a :: as) t || charHasSub as t

/-- Python's `t in s` on strings: substring containment. -/
def strContains (s t : String) : Bool := charHasSub s.data t.data

/-- The fixed 11-entry EV model catalog (`ev_models` in
`batteryHealth.py`). -/
def ev_models : List String :=
  ["Tesla Model 3", "Nissan Leaf", "Chevrolet Bolt", "BMW i3",
   "Hyundai Kona Electric", "Volkswagen ID.4", "Ford Mustang Mach-E",
   "Audi e-tron", "Rivian R1T", "BYD Atto 3", "MG ZS EV"]

/-- The per-model battery-capacity candidate sets, matched by substring
on the model name in the source's branch order (`batteryHealth.py`
lines 61-68). -/
def capacityChoices (model : String) : List ℕ :=
  if strContains model "Tesla" then [50, 75, 100]
  else if strContains model "Nissan Leaf" then [40, 62]
  else if strContains model "Rivian" then [135, 180]
  else [50, 60, 75, 82]

/-- The raw random draws consumed while generating one record, one field
per draw site of the loop body of `generate_realistic_battery_data`, in
source order. -/
structure Draws where
  /-- `np.random.uniform(0.1, 10)` (line 29) -/
  age_years : ℚ
  /-- `np.random.uniform(8000, 25000)` (line 33) -/
  annual_mileage : ℚ
  /-- `np.random.normal(0, 2000)` (line 34) -/
  mileage_noise : ℚ
  /-- `np.random.normal(0, 50)` (line 37) -/
  cycles_noise : ℚ
  /-- the Beta draw of line 40 (shape parameters depend on the age bracket) -/
  fast_charge_ratio : ℚ
  /-- `np.random.uniform(15, 40)` (line 43) -/
  avg_temperature_c : ℚ
  /-- `np.random.uniform(0.3, 0.9)` (line 46) -/
  avg_depth_of_discharge : ℚ
  /-- `np.random.normal(0, 5)` (line 49) -/
  voltage_noise : ℚ
  /-- `np.random.uniform(0, 1)` (line 53) -/
  resistance_noise : ℚ
  /-- `np.random.uniform(-0.02, 0.01)` (line 56) -/
  efficiency_noise : ℚ
  /-- index of the `np.random.choice(ev_models)` draw (line 60) -/
  modelIdx : ℕ
  /-- index of the capacity `np.random.choice` draw (lines 62-68) -/
  capIdx : ℕ
  /-- `np.random.uniform(2, 3)` (line 76) -/
  calendar_rate : ℚ
  /-- `np.random.normal(0, 2)` (line 101) -/
  health_noise : ℚ
deriving DecidableEq

/-- `mileage = age_years * annual_mileage + np.random.normal(0, 2000)`
(line 34), the float value before the `int()` at record assembly. -/
def mileageF (d : Draws) : ℚ := d.age_years * d.annual_mileage + d.mileage_noise

/-- `battery_cycles = int(mileage / 300 + np.random.normal(0, 50))`
(line 37). -/
def batteryCycles (d : Draws) : ℤ := pyInt (mileageF d / 300 + d.cycles_noise)

/-- `model = np.random.choice(ev_models)` (line 60), modelled as
selection by index. -/
def modelOf (d : Draws) : String := ev_models.getD (d.modelIdx % ev_models.length) ""

/-- The capacity choice of lines 61-68: an element of the per-model
candidate set, selected by index. -/
def capacityOf (d : Draws) : ℕ :=
  (capacityChoices (modelOf d)).getD (d.capIdx % (capacityChoices (modelOf d)).length) 0

/-- Calendar-aging degradation: `age_years * np.random.uniform(2, 3)`
(line 76). -/
def calendarDeg (d : Draws) : ℚ := d.age_years * d.calendar_rate

/-- `cycle_factor = 0.01 if avg_depth_of_discharge < 0.5 else 0.015`
(line 80). -/
def cycleFactor (d : Draws) : ℚ :=
  if d.avg_depth_of_discharge < 0.5 then 0.01 else 0.015

/-- Cycle degradation: `battery_cycles * cycle_factor *
avg_depth_of_discharge` (line 81). -/
def cycleDeg (d : Draws) : ℚ :=
  (batteryCycles d : ℚ) * cycleFactor d * d.avg_depth_of_discharge

/-- Fast-charging degradation: `fast_charge_ratio * battery_cycles *
0.005` (line 85). -/
def fastChargeDeg (d : Draws) : ℚ :=
  d.fast_charge_ratio * (batteryCycles d : ℚ) * 0.005

/-- Temperature-stress degradation (lines 89-94). -/
def thermalDeg (d : Draws) : ℚ :=
  if 35 < d.avg_temperature_c then
    (d.avg_temperature_c - 35) * d.age_years * 0.3
  else if d.avg_temperature_c < 10 then
    (10 - d.avg_temperature_c) * d.age_years * 0.15
  else 0

/-- High-mileage penalty as a function of the float mileage
(lines 97-98). -/
def highMileTerm (m : ℚ) : ℚ := if 100000 < m then (m - 100000) / 10000 * 0.5 else 0

/-- High-mileage degradation of the record (lines 97-98); the source
uses the float `mileage`, not the truncated integer. -/
def highMileageDeg (d : Draws) : ℚ := highMileTerm (mileageF d)

/-- The battery-health value after all five degradation subtractions and
the Gaussian noise, before the clamp (lines 73-101). -/
def healthPreClamp (d : Draws) : ℚ :=
  100 - calendarDeg d - cycleDeg d - fastChargeDeg d - thermalDeg d
    - highMileageDeg d + d.health_noise

/-- `battery_health = max(40, min(100, battery_health))` (line 104). -/
def batteryHealth (d : Draws) : ℚ := max 40 (min 100 (healthPreClamp d))

/-- `charging_efficiency` (lines 56-57): linear decay in age plus noise,
clamped to `[0.80, 0.98]`. -/
def chargingEfficiency (d : Draws) : ℚ :=
  max 0.80 (min 0.98 (0.95 - d.age_years * 0.008 + d.efficiency_noise))

/-- One row of the generated table: the 12 fields appended at
lines 106-119 of `batteryHealth.py`, after their `round()` /`int()`
conversions. -/
structure Record where
  model : String
  age_years : ℚ
  mileage : ℤ
  battery_cycles : ℤ
  fast_charge_ratio : ℚ
  avg_temperature_c : ℚ
  avg_depth_of_discharge : ℚ
  voltage : ℚ
  internal_resistance_mohm : ℚ
  charging_efficiency : ℚ
  battery_capacity_kwh : ℕ
  battery_health_percent : ℚ
deriving DecidableEq

/-- The loop body of `generate_realistic_battery_data` as a function of
the per-record draws: the record appended at lines 106-119. -/
def genRecord (d : Draws) : Record where
  model := modelOf d
  age_years := pyRound d.age_years 2
  mileage := pyInt (mileageF d)
  battery_cycles := batteryCycles d
  fast_charge_ratio := pyRound d.fast_charge_ratio 3
  avg_temperature_c := pyRound d.avg_temperature_c 1
  avg_depth_of_discharge := pyRound d.avg_depth_of_discharge 3
  voltage := pyRound (400 - d.age_years * 1.5 + d.voltage_noise) 2
  internal_resistance_mohm := pyRound (2.0 + d.age_years * 0.8 + d.resistance_noise) 2
  charging_efficiency := pyRound (chargingEfficiency d) 3
  battery_capacity_kwh := capacityOf d
  battery_health_percent := pyRound (batteryHealth d) 2

/-! ### The pseudo-random stream

A concrete deterministic stand-in for numpy's seeded global generator:
state is a natural number, each draw advances it by a linear
congruential step.  Only determinism-shaped claims depend on it. -/

/-- One step of the modelled pseudo-random stream. -/
def rngNext (g : ℕ) : ℕ := (g * 1103515245 + 12345) % 2 ^ 31

/-- A draw in `[0, 1)` together with the advanced state. -/
def unitDraw (g : ℕ) : ℚ × ℕ :=
  let g' := rngNext g
  ((g' : ℚ) / 2 ^ 31, g')

/-- `np.random.uniform(a, b)`. -/
def uniformDraw (a b : ℚ) (g : ℕ) : ℚ × ℕ :=
  let (u, g') := unitDraw g
  (a + (b - a) * u, g')

/-- `np.random.normal(mu, sigma)`: one stream draw mapped affinely (the
distributional shape is outside the model). -/
def normalDraw (mu sigma : ℚ) (g : ℕ) : ℚ × ℕ :=
  let (u, g') := unitDraw g
  (mu + sigma * (2 * u - 1), g')

/-- `np.random.beta(a, b)`: one stream draw in `[0, 1)` (the shape
parameters select a distribution, which is outside the model). -/
def betaDraw (a b : ℚ) (g : ℕ) : ℚ × ℕ :=
  let _ := (a, b)
  unitDraw g

/-- `np.random.choice` over `k` alternatives: an index draw. -/
def choiceDraw (k : ℕ) (g : ℕ) : ℕ × ℕ :=
  let g' := rngNext g
  (g' % k, g')

/-- `np.random.seed(s)`: the state the stream is reset to. -/
def npSeed (s : ℕ) : ℕ := rngNext s

/-- All draws of one loop iteration, consumed from the stream in source
order (lines 29-101). -/
def drawRecord (g0 : ℕ) : Draws × ℕ :=
  let (age_years, g1) := uniformDraw 0.1 10 g0
  let (annual_mileage, g2) := uniformDraw 8000 25000 g1
  let (mileage_noise, g3) := normalDraw 0 2000 g2
  let (cycles_noise, g4) := normalDraw 0 50 g3
  let (fast_charge_ratio, g5) :=
    if age_years < 3 then betaDraw 2 5 g4 else betaDraw 1.5 4 g4
  let (avg_temperature_c, g6) := uniformDraw 15 40 g5
  let (avg_depth_of_discharge, g7) := uniformDraw 0.3 0.9 g6
  let (voltage_noise, g8) := normalDraw 0 5 g7
  let (resistance_noise, g9) := uniformDraw 0 1 g8
  let (efficiency_noise, g10) := uniformDraw (-0.02) 0.01 g9
  let (modelIdx, g11) := choiceDraw ev_models.length g10
  let model := ev_models.getD (modelIdx % ev_models.length) ""
  let (capIdx, g12) := choiceDraw (capacityChoices model).length g11
  let (calendar_rate, g13) := uniformDraw 2 3 g12
  let (health_noise, g14) := normalDraw 0 2 g13
  ({ age_years, annual_mileage, mileage_noise, cycles_noise,
     fast_charge_ratio, avg_temperature_c, avg_depth_of_discharge,
     voltage_noise, resistance_noise, efficiency_noise, modelIdx,
     capIdx, calendar_rate, health_noise }, g14)

/-- The generation loop: `n` records drawn sequentially from the
stream. -/
def genLoop : ℕ → ℕ → List Record × ℕ
  | 0, g => ([], g)
  | n + 1, g =>
    let (d, g') := drawRecord g
    let (rest, g'') := genLoop n g'
    (genRecord d :: rest, g'')

/-- `generate_realistic_battery_data(n_samples)`: executes
`np.random.seed(42)` (line 17), which replaces the incoming global
stream state `g0`, then generates `n` records.  Returns the table and
the final global stream state. -/
def generate_realistic_battery_data (n : ℕ) (g0 : ℕ) : List Record × ℕ :=
  let _ := g0
  let g := npSeed 42
  genLoop n g

/-! ### Label encoding and prediction

`sklearn.preprocessing.LabelEncoder.fit` stores the sorted unique class
strings; `transform` maps a string to its index among those classes and
raises on an unseen string.  Both prediction routines wrap `transform`
in `try/except`, substituting the encoded value `0` on failure. -/

/-- Lexicographic comparison of character lists (string order used when
sorting label-encoder classes). -/
def charLexLe : List Char → List Char → Bool
  | [], _ => true
  | _ :: _, [] => false
  | a :: as, b :: bs => if a < b then true else if a == b then charLexLe as bs else false

/-- String order used when sorting label-encoder classes. -/
def strLe (a b : String) : Bool := charLexLe a.data b.data

/-- Insert a string into a sorted list of strings. -/
def insertSorted (x : String) : List String → List String
  | [] => [x]
  | y :: ys => if strLe x y then x :: y :: ys else y :: insertSorted x ys

/-- Sort a list of strings by insertion. -/
def sortStrings : List String → List String
  | [] => []
  | x :: xs => insertSorted x (sortStrings xs)

/-- `LabelEncoder.fit`: the sorted unique values of the column. -/
def labelClasses (xs : List String) : List String := sortStrings xs.dedup

/-- `LabelEncoder.transform` on one string: its index among the fitted
classes, or `none` (the raised exception) when unseen. -/
def leTransform : List String → String → Option ℕ
  | [], _ => none
  | y :: ys, x => if y = x then some 0 else (leTransform ys x).map (· + 1)

/-- Input to `predict_battery_health`: the model string plus the ten
numeric features in the order of `feature_cols`. -/
structure BHInput where
  model : String
  features : List ℚ

/-- `predict_battery_health(model, le_model, feature_cols, input_data)`
(lines 201-219 of `batteryHealth.py`): encode the model string
(falling back to `0` on an unseen string), assemble the feature vector
with `model_encoded` last, apply the regressor `gbm`, and clamp the
result to `[0, 100]`. -/
def predict_battery_health (gbm : List ℚ → ℚ) (classes : List String)
    (inp : BHInput) : ℚ :=
  let enc : ℕ := match leTransform classes inp.model with
    | some i => i
    | none => 0
  max 0 (min 100 (gbm (inp.features ++ [(enc : ℚ)])))

/-- `predict_repair_cost(model, encoders, feature_cols, ...)`
(lines 129-183 of `repairecost.py`): encode the model and repair-type
strings (each falling back to `0` when unseen), assemble the feature
vector with the two encoded values last, apply the regressor, and clamp
the result to be non-negative. -/
def predict_repair_cost (gbm : List ℚ → ℚ)
    (modelClasses repairClasses : List String) (numeric : List ℚ)
    (model_name repair_type : String) : ℚ :=
  let em : ℕ := match leTransform modelClasses model_name with
    | some i => i
    | none => 0
  let er : ℕ := match leTransform repairClasses repair_type with
    | some i => i
    | none => 0
  max 0 (gbm (numeric ++ [(em : ℚ), (er : ℚ)]))

/-! ### The DataFrame mutation of `prepare_battery_health_data` -/

/-- A cell of a DataFrame column: a string or a numeric value. -/
inductive Val where
  | s (v : String)
  | q (v : ℚ)
deriving DecidableEq

/-- The string held in a cell (model-name column entries). -/
def Val.str : Val → String
  | .s v => v
  | .q _ => ""

/-- A DataFrame: named columns in order. -/
def DataFrame := List (String × List Val)

/-- Read a column by name (empty when absent). -/
def getCol : DataFrame → String → List Val
  | [], _ => []
  | (m, col) :: rest, c => if m = c then col else getCol rest c

/-- `df[name] = col`: replace the column when present, append it at the
end otherwise (pandas column assignment). -/
def setCol : DataFrame → String → List Val → DataFrame
  | [], n, col => [(n, col)]
  | (m, old) :: rest, n, col =>
    if m = n then (m, col) :: rest else (m, old) :: setCol rest n col

/-- Is a column of this name present? -/
def hasCol : DataFrame → String → Bool
  | [], _ => false
  | (m, _) :: rest, c => m = c || hasCol rest c

/-- The ten numeric feature columns of `prepare_battery_health_data`
(lines 126-137 of `batteryHealth.py`). -/
def bh_feature_cols : List String :=
  ["age_years", "mileage", "battery_cycles", "fast_charge_ratio",
   "avg_temperature_c", "avg_depth_of_discharge", "voltage",
   "internal_resistance_mohm", "charging_efficiency",
   "battery_capacity_kwh"]

/-- The result of `prepare_battery_health_data`, together with the
DataFrame as the caller sees it afterwards (the source mutates `df` in
place at line 141; the mutation is made explicit as the `df` field). -/
structure BHPrepared where
  X : List (String × List Val)
  y : List Val
  classes : List String
  feature_cols : List String
  df : DataFrame

/-- `prepare_battery_health_data(df)` (lines 124-147 of
`batteryHealth.py`): fit a label encoder on the `model` column, write
the encoded values into the new column `model_encoded` of `df`, extract
the feature matrix and the target column. -/
def prepare_battery_health_data (df : DataFrame) : BHPrepared :=
  let modelStrs := (getCol df "model").map Val.str
  let classes := labelClasses modelStrs
  let encoded := modelStrs.map (fun s => ((leTransform classes s).getD 0 : ℚ))
  let df' := setCol df "model_encoded" (encoded.map Val.q)
  let fcols := bh_feature_cols ++ ["model_encoded"]
  { X := fcols.map (fun c => (c, getCol df' c))
    y := getCol df' "battery_health_percent"
    classes := classes
    feature_cols := fcols
    df := df' }

/-! ### The repair-cost training pipeline -/

/-- One row of the repair-cost CSV (`sl_ev_repair_cost_dataset.csv`):
the columns the two training scripts read.  Numeric cells are optional
to model missing values (the scripts mean-impute them). -/
structure RepairRow where
  needs_repair : Bool
  model : String
  repair_type : String
  age_years : Option ℚ
  mileage_km : Option ℚ
  battery_health_percent : Option ℚ
  battery_capacity_kwh : Option ℚ
  out_of_pocket_cost_lkr : Option ℚ
deriving DecidableEq

/-- Column mean over the non-missing entries (`X.mean()`; pandas skips
missing values). -/
def colMean (xs : List (Option ℚ)) : ℚ :=
  let vs := xs.filterMap id
  vs.sum / vs.length

/-- `X.fillna(X.mean())` on one column. -/
def fillnaCol (xs : List (Option ℚ)) : List (Option ℚ) :=
  xs.map (fun o => some (o.getD (colMean xs)))

/-- `if X.isnull().sum().sum() > 0: X = X.fillna(X.mean())` over named
columns. -/
def fillnaIfNull (cols : List (String × List (Option ℚ))) :
    List (String × List (Option ℚ)) :=
  if cols.any (fun c => c.2.any (·.isNone)) then
    cols.map (fun c => (c.1, fillnaCol c.2))
  else cols

/-- Outputs of `prepare_simplified_repair_data`: feature matrix, target
column, the two fitted encoders' class lists, and the feature names. -/
structure RepairPrepared where
  X : List (String × List (Option ℚ))
  y : List (Option ℚ)
  modelClasses : List String
  repairClasses : List String
  feature_cols : List String
deriving DecidableEq

/-- The body of `prepare_simplified_repair_data` applied to the already
filtered rows (`df_repair`): encode the two categorical columns, build
the six-column feature matrix, mean-impute missing values, take the
cost column as target (lines 12-52 of `repairecost.py`). -/
def prepareRepairFiltered (r : List RepairRow) : RepairPrepared :=
  let modelClasses := labelClasses (r.map (·.model))
  let repairClasses := labelClasses (r.map (·.repair_type))
  let model_encoded := r.map
    (fun row => some ((leTransform modelClasses row.model).getD 0 : ℚ))
  let repair_encoded := r.map
    (fun row => some ((leTransform repairClasses row.repair_type).getD 0 : ℚ))
  let Xraw : List (String × List (Option ℚ)) :=
    [("age_years", r.map (·.age_years)),
     ("mileage_km", r.map (·.mileage_km)),
     ("battery_health_percent", r.map (·.battery_health_percent)),
     ("battery_capacity_kwh", r.map (·.battery_capacity_kwh)),
     ("model_encoded", model_encoded),
     ("repair_type_encoded", repair_encoded)]
  { X := fillnaIfNull Xraw
    y := r.map (·.out_of_pocket_cost_lkr)
    modelClasses := modelClasses
    repairClasses := repairClasses
    feature_cols := ["age_years", "mileage_km", "battery_health_percent",
                     "battery_capacity_kwh", "model_encoded",
                     "repair_type_encoded"] }

/-- `prepare_simplified_repair_data(df)`: `df_repair = df[df['needs_repair']
== True]` (line 18), then encoding and feature assembly. -/
def prepare_simplified_repair_data (rows : List RepairRow) : RepairPrepared :=
  prepareRepairFiltered (rows.filter (·.needs_repair))

/-- `train_simplified_repair_model(df)` (lines 55-126 of
`repairecost.py`) with the library fit step abstracted as `fit`:
returns the fitted model together with the encoders and feature list it
persists. -/
def train_simplified_repair_model {M : Type}
    (fit : List (String × List (Option ℚ)) → List (Option ℚ) → M)
    (rows : List RepairRow) : M × List String × List String × List String :=
  let p := prepare_simplified_repair_data rows
  (fit p.X p.y, p.modelClasses, p.repairClasses, p.feature_cols)

/-- The data-dependent artifacts of `train_and_convert`
(lines 12-59 of `train_simplified_model.py`): filter to
`needs_repair == True`, encode the two categorical columns, select the
six feature columns, mean-impute, fit; the preparation on the filtered
rows coincides with `prepareRepairFiltered`.  Returns the fitted model
and the persisted feature list, with the library fit step abstracted as
`fit`. -/
def train_and_convert {M : Type}
    (fit : List (String × List (Option ℚ)) → List (Option ℚ) → M)
    (rows : List RepairRow) : M × List String :=
  let p := prepareRepairFiltered (rows.filter (·.needs_repair))
  (fit p.X p.y, p.feature_cols)

/-! ### Claim-side formula and concrete inputs -/

/-- The battery-health formula exactly as the spec's step 11 states it:
the clamp to `[40, 100]` of `100` minus the calendar, cycle,
fast-charge, thermal and high-mileage terms plus the Gaussian noise,
with no final rounding.  Written from the spec's words, to be compared
with the generator's stored field. -/
def claimHealthSpec (d : Draws) : ℚ :=
  let cycleTerm := (batteryCycles d : ℚ) *
    (if d.avg_depth_of_discharge < 0.5 then 0.01 else 0.015) *
      d.avg_depth_of_discharge
  let fastTerm := d.fast_charge_ratio * (batteryCycles d : ℚ) * 0.005
  let thermalTerm :=
    if 35 < d.avg_temperature_c then
      (d.avg_temperature_c - 35) * d.age_years * 0.3
    else if d.avg_temperature_c < 10 then
      (10 - d.avg_temperature_c) * d.age_years * 0.15
    else 0
  let mileTerm :=
    if 100000 < mileageF d then (mileageF d - 100000) / 10000 * 0.5 else 0
  max 40 (min 100 (100 - d.age_years * d.calendar_rate - cycleTerm
    - fastTerm - thermalTerm - mileTerm + d.health_noise))

/-- Concrete draws whose pre-clamp health lands on `97.005`: one year
old, zero cycles, no other degradation, calendar rate `2.995`. -/
def roundCexDraws : Draws where
  age_years := 1
  annual_mileage := 8000
  mileage_noise := 0
  cycles_noise := -80/3
  fast_charge_ratio := 0
  avg_temperature_c := 20
  avg_depth_of_discharge := 0.3
  voltage_noise := 0
  resistance_noise := 0
  efficiency_noise := 0
  modelIdx := 0
  capIdx := 0
  calendar_rate := 2.995
  health_noise := 0

/-- Concrete draws with a large negative mileage-noise draw on a very
young vehicle: `0.1 * 8000 - 5000 = -4200`. -/
def negMileageDraws : Draws where
  age_years := 0.1
  annual_mileage := 8000
  mileage_noise := -5000
  cycles_noise := 0
  fast_charge_ratio := 0
  avg_temperature_c := 20
  avg_depth_of_discharge := 0.5
  voltage_noise := 0
  resistance_noise := 0
  efficiency_noise := 0
  modelIdx := 0
  capIdx := 0
  calendar_rate := 2
  health_noise := 0

/-- Unexceptional concrete draws inside all documented supports. -/
def plainDraws : Draws where
  age_years := 2
  annual_mileage := 10000
  mileage_noise := 500
  cycles_noise := 10
  fast_charge_ratio := 0.2
  avg_temperature_c := 25
  avg_depth_of_discharge := 0.5
  voltage_noise := 1
  resistance_noise := 0.5
  efficiency_noise := 0.01
  modelIdx := 3
  capIdx := 1
  calendar_rate := 2.5
  health_noise := 1

/-- An example DataFrame holding a `model` column and a target column. -/
def dfExample : DataFrame :=
  [("model", [Val.s "Tesla Model 3", Val.s "Nissan Leaf"]),
   ("battery_health_percent", [Val.q 95, Val.q 80])]

/-- A CSV row that needs repair. -/
def repairRowA : RepairRow where
  needs_repair := true
  model := "Nissan Leaf"
  repair_type := "Battery Replacement"
  age_years := some 7
  mileage_km := some 85000
  battery_health_percent := some 65
  battery_capacity_kwh := some 40
  out_of_pocket_cost_lkr := some 450000

/-- A CSV row that needs no repair. -/
def repairRowB : RepairRow where
  needs_repair := false
  model := "Tesla Model 3"
  repair_type := "None"
  age_years := some 2
  mileage_km := some 20000
  battery_health_percent := some 95
  battery_capacity_kwh := some 75
  out_of_pocket_cost_lkr := none

/-- Another CSV row that needs no repair, different from `repairRowB`. -/
def repairRowC : RepairRow where
  needs_repair := false
  model := "BYD Atto 3"
  repair_type := "None"
  age_years := some 1
  mileage_km := some 9000
  battery_health_percent := some 98
  battery_capacity_kwh := some 60
  out_of_pocket_cost_lkr := none

/-! ## Helper lemmas -/

theorem roundHE_le (q : ℚ) : (roundHE q : ℚ) ≤ q + 1/2 := by
  have h1 : ((⌊q⌋ : ℤ) : ℚ) ≤ q := Int.floor_le q
  unfold roundHE
  split_ifs <;> push_cast <;> linarith

theorem le_roundHE (q : ℚ) : q - 1/2 ≤ (roundHE q : ℚ) := by
  have h2 : q < (⌊q⌋ : ℚ) + 1 := Int.lt_floor_add_one q
  unfold roundHE
  split_ifs <;> push_cast <;> linarith

theorem pyRound_le {x : ℚ} {k : ℕ} {m : ℤ} (h : x ≤ (m : ℚ) / 10 ^ k) :
    pyRound x k ≤ (m : ℚ) / 10 ^ k := by
  have hp : (0 : ℚ) < 10 ^ k := by positivity
  have hx : x * 10 ^ k ≤ (m : ℚ) := (le_div_iff₀ hp).mp h
  have h1 : (roundHE (x * 10 ^ k) : ℚ) ≤ x * 10 ^ k + 1/2 := roundHE_le _
  have h2 : (roundHE (x * 10 ^ k) : ℚ) < (m : ℚ) + 1 := by linarith
  have h3 : roundHE (x * 10 ^ k) ≤ m := by exact_mod_cast Int.lt_add_one_iff.mp (by exact_mod_cast h2)
  unfold pyRound
  exact (div_le_div_iff_of_pos_right hp).mpr (by exact_mod_cast h3)

theorem le_pyRound {x : ℚ} {k : ℕ} {m : ℤ} (h : (m : ℚ) / 10 ^ k ≤ x) :
    (m : ℚ) / 10 ^ k ≤ pyRound x k := by
  have hp : (0 : ℚ) < 10 ^ k := by positivity
  have hx : (m : ℚ) ≤ x * 10 ^ k := (div_le_iff₀ hp).mp h
  have h1 : x * 10 ^ k - 1/2 ≤ (roundHE (x * 10 ^ k) : ℚ) := le_roundHE _
  have h2 : (m : ℚ) - 1 < (roundHE (x * 10 ^ k) : ℚ) := by linarith
  have h3 : m ≤ roundHE (x * 10 ^ k) := by
    have : m - 1 < roundHE (x * 10 ^ k) := by exact_mod_cast h2
    omega
  unfold pyRound
  exact (div_le_div_iff_of_pos_right hp).mpr (by exact_mod_cast h3)

theorem le_pyRound' {x lo : ℚ} {k : ℕ} (m : ℤ) (hm : lo = (m : ℚ) / 10 ^ k)
    (h : lo ≤ x) : lo ≤ pyRound x k := by
  rw [hm] at h ⊢; exact le_pyRound h

theorem pyRound_le' {x hi : ℚ} {k : ℕ} (m : ℤ) (hm : hi = (m : ℚ) / 10 ^ k)
    (h : x ≤ hi) : pyRound x k ≤ hi := by
  rw [hm] at h ⊢; exact pyRound_le h

theorem pyInt_mono {q r : ℚ} (h : q ≤ r) : pyInt q ≤ pyInt r := by
  unfold pyInt
  split_ifs with hq hr
  · exact Int.ceil_mono h
  · have hc : ⌈q⌉ ≤ 0 := Int.ceil_le.mpr (by exact_mod_cast le_of_lt hq)
    have hf : 0 ≤ ⌊r⌋ := Int.floor_nonneg.mpr (not_lt.mp hr)
    omega
  · exact absurd (lt_of_le_of_lt h (by assumption)) hq
  · exact Int.floor_mono h

theorem pyInt_nonneg {q : ℚ} (h : 0 ≤ q) : 0 ≤ pyInt q := by
  unfold pyInt
  rw [if_neg (not_lt.mpr h)]
  exact Int.floor_nonneg.mpr h

theorem highMileTerm_mono {m m' : ℚ} (h : m ≤ m') :
    highMileTerm m ≤ highMileTerm m' := by
  unfold highMileTerm
  split_ifs <;> linarith

theorem capacityChoices_ne_nil (m : String) : capacityChoices m ≠ [] := by
  unfold capacityChoices
  split_ifs <;> simp

theorem getD_mod_mem {l : List ℕ} (hl : l ≠ []) (i : ℕ) :
    l.getD (i % l.length) 0 ∈ l := by
  have hlen : 0 < l.length := List.length_pos.mpr hl
  have hi : i % l.length < l.length := Nat.mod_lt _ hlen
  rw [List.getD_eq_getElem l 0 hi]
  exact List.getElem_mem hi

theorem leTransform_eq_none :
    ∀ {classes : List String} {x : String}, x ∉ classes →
      leTransform classes x = none := by
  intro classes
  induction classes with
  | nil => intro x _; rfl
  | cons y ys ih =>
    intro x hx
    simp only [List.mem_cons, not_or] at hx
    have hne : ¬ (y = x) := fun e => hx.1 e.symm
    simp [leTransform, hne, ih hx.2]

/-! ## Claim C1: determinism of the generator -/

/-- C1.  The generator re-seeds the pseudo-random stream at entry
(`np.random.seed(42)`), so the produced table is independent of the
incoming global stream state: any two calls with the same `n` yield
identical tables. -/
theorem generator_deterministic (n g1 g2 : ℕ) :
    (generate_realistic_battery_data n g1).1 =
      (generate_realistic_battery_data n g2).1 := rfl

/-! ## Claim C2: the battery-health formula -/

/-- C2, counterexample.  The stored `battery_health_percent` is *not*
exactly the clamped degradation formula: the source rounds it to two
decimal places (`round(battery_health, 2)`, line 118).  On draws whose
clamped health is `97.005` the stored field is `97`. -/
theorem battery_health_round_cex :
    (genRecord roundCexDraws).battery_health_percent ≠
      claimHealthSpec roundCexDraws := by
  show pyRound (batteryHealth roundCexDraws) 2 ≠ batteryHealth roundCexDraws
  have h1 : mileageF roundCexDraws = 8000 := by
    norm_num [mileageF, roundCexDraws]
  have h2 : batteryCycles roundCexDraws = 0 := by
    have e : mileageF roundCexDraws / 300 + roundCexDraws.cycles_noise = 0 := by
      rw [h1]; norm_num [roundCexDraws]
    simp [batteryCycles, e, pyInt]
  have hcal : calendarDeg roundCexDraws = 2.995 := by
    norm_num [calendarDeg, roundCexDraws]
  have hcyc : cycleDeg roundCexDraws = 0 := by
    unfold cycleDeg; rw [h2]; push_cast; ring
  have hfast : fastChargeDeg roundCexDraws = 0 := by
    unfold fastChargeDeg; rw [h2]; push_cast; ring
  have hth : thermalDeg roundCexDraws = 0 := by
    unfold thermalDeg; norm_num [roundCexDraws]
  have hhm : highMileageDeg roundCexDraws = 0 := by
    unfold highMileageDeg highMileTerm; rw [h1]; norm_num
  have h3 : batteryHealth roundCexDraws = 97.005 := by
    unfold batteryHealth healthPreClamp
    rw [hcal, hcyc, hfast, hth, hhm]
    norm_num [roundCexDraws, max_def, min_def]
  rw [h3]
  have hf : ⌊(9700.5 : ℚ)⌋ = 9700 := by
    rw [Int.floor_eq_iff]
    norm_num
  have hr : roundHE (9700.5 : ℚ) = 9700 := by
    unfold roundHE
    rw [hf]
    norm_num
  have hm : (97.005 : ℚ) * 10 ^ 2 = 9700.5 := by norm_num
  unfold pyRound
  rw [hm, hr]
  norm_num

/-- C2, amended.  For every record, `battery_health_percent` equals the
claim's formula — 100 minus, in order, the calendar, cycle,
fast-charge, thermal and high-mileage terms, plus the Gaussian noise,
clamped to `[40, 100]` — rounded to two decimal places (the source's
final `round(battery_health, 2)`). -/
theorem battery_health_formula (d : Draws) :
    (genRecord d).battery_health_percent = pyRound (claimHealthSpec d) 2 := rfl

/-! ## Claim C4: mileage sign -/

/-- C4, counterexample.  The source never clamps `mileage` to be
non-negative: with a young vehicle (`age_years = 0.1`,
`annual_mileage = 8000`) and a mileage-noise draw of `-5000`, the
generated record has `mileage = -4200 < 0`. -/
theorem mileage_negative_cex : (genRecord negMileageDraws).mileage < 0 := by
  show pyInt (mileageF negMileageDraws) < 0
  have h1 : mileageF negMileageDraws = -4200 := by
    norm_num [mileageF, negMileageDraws]
  rw [h1]
  have hc : ⌈(-4200 : ℚ)⌉ = -4200 := by
    rw [Int.ceil_eq_iff]
    norm_num
  rw [pyInt, if_pos (by norm_num)]
  omega

/-- C4, amended.  `mileage` is `int(age_years * annual_mileage + noise)`
with no non-negativity clamp, and can be negative; it is non-negative
whenever the noise draw is at least `-(age_years * annual_mileage)`. -/
theorem mileage_nonneg_of_noise (d : Draws)
    (h : -(d.age_years * d.annual_mileage) ≤ d.mileage_noise) :
    0 ≤ (genRecord d).mileage := by
  show (0 : ℤ) ≤ pyInt (mileageF d)
  apply pyInt_nonneg
  unfold mileageF
  linarith

/-- C4, witness for the amended theorem at concrete draws. -/
theorem mileage_nonneg_witness :
    -(plainDraws.age_years * plainDraws.annual_mileage) ≤ plainDraws.mileage_noise ∧
      0 ≤ (genRecord plainDraws).mileage :=
  ⟨by norm_num [plainDraws], mileage_nonneg_of_noise plainDraws (by norm_num [plainDraws])⟩

/-! ## Claim C5: battery capacity candidate sets -/

/-- C5.  Every generated record's `battery_capacity_kwh` belongs to the
candidate set selected from its `model` string by substring match in
the source's priority order: Tesla, then Nissan Leaf, then Rivian, then
the default set. -/
theorem capacity_in_model_set (d : Draws) :
    (genRecord d).battery_capacity_kwh ∈
      (if strContains (genRecord d).model "Tesla" then [50, 75, 100]
       else if strContains (genRecord d).model "Nissan Leaf" then [40, 62]
       else if strContains (genRecord d).model "Rivian" then [135, 180]
       else [50, 60, 75, 82]) := by
  show capacityOf d ∈ capacityChoices (modelOf d)
  unfold capacityOf
  exact getD_mod_mem (capacityChoices_ne_nil _) _

/-! ## Claim C3: clamp-range invariants -/

/-- C3.  On every generated record whose depth-of-discharge draw lies in
the documented support `[0.3, 0.9)`, the three bounded fields respect
their declared ranges: health in `[40, 100]`, charging efficiency in
`[0.80, 0.98]`, depth of discharge in `[0.3, 0.9]`. -/
theorem generated_record_bounds (d : Draws)
    (h1 : 0.3 ≤ d.avg_depth_of_discharge)
    (h2 : d.avg_depth_of_discharge < 0.9) :
    40 ≤ (genRecord d).battery_health_percent ∧
      (genRecord d).battery_health_percent ≤ 100 ∧
      0.80 ≤ (genRecord d).charging_efficiency ∧
      (genRecord d).charging_efficiency ≤ 0.98 ∧
      0.3 ≤ (genRecord d).avg_depth_of_discharge ∧
      (genRecord d).avg_depth_of_discharge ≤ 0.9 := by
  refine ⟨?_, ?_, ?_, ?_, ?_, ?_⟩
  · exact le_pyRound' 4000 (by norm_num) (le_max_left _ _)
  · exact pyRound_le' 10000 (by norm_num) (max_le (by norm_num) (min_le_left _ _))
  · exact le_pyRound' 800 (by norm_num) (le_max_left _ _)
  · exact pyRound_le' 980 (by norm_num) (max_le (by norm_num) (min_le_left _ _))
  · exact le_pyRound' 300 (by norm_num) h1
  · exact pyRound_le' 900 (by norm_num) (le_of_lt h2)

/-- C3, witness at concrete draws in all supports. -/
theorem generated_record_bounds_witness :
    (0.3 ≤ plainDraws.avg_depth_of_discharge ∧
        plainDraws.avg_depth_of_discharge < 0.9) ∧
      (40 ≤ (genRecord plainDraws).battery_health_percent ∧
        (genRecord plainDraws).battery_health_percent ≤ 100 ∧
        0.80 ≤ (genRecord plainDraws).charging_efficiency ∧
        (genRecord plainDraws).charging_efficiency ≤ 0.98 ∧
        0.3 ≤ (genRecord plainDraws).avg_depth_of_discharge ∧
        (genRecord plainDraws).avg_depth_of_discharge ≤ 0.9) :=
  ⟨⟨by norm_num [plainDraws], by norm_num [plainDraws]⟩,
   generated_record_bounds plainDraws (by norm_num [plainDraws])
     (by norm_num [plainDraws])⟩

/-! ## Claim C6: unseen categorical values at prediction time -/

/-- C6.  When the input's model string (for battery health) or model /
repair-type strings (for repair cost) were never seen by the fitted
label encoder, `transform` raises, the `except` branch substitutes the
encoded value `0` (the code of the encoder's first class), and the
prediction still returns the clamped regressor output on the feature
vector with `0` in the encoded slots. -/
theorem unknown_category_defaults
    (gbm gbr : List ℚ → ℚ) (classes mClasses rClasses : List String)
    (inp : BHInput) (numeric : List ℚ) (mname rtype : String)
    (h1 : inp.model ∉ classes) (h2 : mname ∉ mClasses)
    (h3 : rtype ∉ rClasses) :
    predict_battery_health gbm classes inp =
        max 0 (min 100 (gbm (inp.features ++ [((0 : ℕ) : ℚ)]))) ∧
      predict_repair_cost gbr mClasses rClasses numeric mname rtype =
        max 0 (gbr (numeric ++ [((0 : ℕ) : ℚ), ((0 : ℕ) : ℚ)])) := by
  constructor
  · unfold predict_battery_health
    rw [leTransform_eq_none h1]
  · unfold predict_repair_cost
    rw [leTransform_eq_none h2, leTransform_eq_none h3]

/-- C6, witness: unseen strings on concrete encoders. -/
theorem unknown_category_defaults_witness :
    ("Cybertruck" ∉ ["BMW i3", "Nissan Leaf"]) ∧
      (predict_battery_health (fun l => l.sum) ["BMW i3", "Nissan Leaf"]
          { model := "Cybertruck", features := [1, 2] } =
          max 0 (min 100 (List.sum ([1, 2] ++ [((0 : ℕ) : ℚ)]))) ∧
        predict_repair_cost (fun l => l.sum) ["Nissan Leaf"]
          ["Battery Replacement"] [5] "Cybertruck" "Flux Capacitor" =
          max 0 (List.sum ([5] ++ [((0 : ℕ) : ℚ), ((0 : ℕ) : ℚ)]))) :=
  ⟨by decide,
   unknown_category_defaults (fun l => l.sum) (fun l => l.sum)
     ["BMW i3", "Nissan Leaf"] ["Nissan Leaf"] ["Battery Replacement"]
     { model := "Cybertruck", features := [1, 2] } [5] "Cybertruck"
     "Flux Capacitor" (by decide) (by decide) (by decide)⟩

/-! ## Claim C7: output clamping of the predictors -/

/-- C7.  For every input (and every fitted regressor), the
battery-health prediction lies in `[0, 100]` and the repair-cost
prediction is non-negative: both are clamped before being returned. -/
theorem predictions_clamped (gbm gbr : List ℚ → ℚ)
    (classes mClasses rClasses : List String) (inp : BHInput)
    (numeric : List ℚ) (mname rtype : String) :
    0 ≤ predict_battery_health gbm classes inp ∧
      predict_battery_health gbm classes inp ≤ 100 ∧
      0 ≤ predict_repair_cost gbr mClasses rClasses numeric mname rtype := by
  refine ⟨le_max_left _ _, ?_, le_max_left _ _⟩
  exact max_le (by norm_num) (min_le_left _ _)

/-! ## Claim C8: degradation is monotone in age -/

/-- C8.  Holding every other field and every random draw fixed (the
draws lying in their documented non-negative supports), increasing
`age_years` does not increase the health value: both the pre-clamp
health and the clamped health are monotone non-increasing in age. -/
theorem health_monotone_in_age (d : Draws) (a : ℚ)
    (hage : d.age_years ≤ a) (hrate : 0 ≤ d.calendar_rate)
    (hfcr : 0 ≤ d.fast_charge_ratio) (hdod : 0 ≤ d.avg_depth_of_discharge)
    (hann : 0 ≤ d.annual_mileage) :
    healthPreClamp { d with age_years := a } ≤ healthPreClamp d ∧
      batteryHealth { d with age_years := a } ≤ batteryHealth d := by
  have hmil : mileageF d ≤ mileageF { d with age_years := a } := by
    unfold mileageF
    have := mul_le_mul_of_nonneg_right hage hann
    dsimp only
    linarith
  have hcyc : batteryCycles d ≤ batteryCycles { d with age_years := a } := by
    unfold batteryCycles
    apply pyInt_mono
    dsimp only
    linarith [hmil]
  have hcycQ : ((batteryCycles d : ℚ)) ≤
      ((batteryCycles { d with age_years := a } : ℚ)) := by exact_mod_cast hcyc
  have hfac : 0 ≤ cycleFactor d := by
    unfold cycleFactor; split_ifs <;> norm_num
  have h1 : calendarDeg d ≤ calendarDeg { d with age_years := a } := by
    unfold calendarDeg
    dsimp only
    exact mul_le_mul_of_nonneg_right hage hrate
  have h2 : cycleDeg d ≤ cycleDeg { d with age_years := a } := by
    unfold cycleDeg
    have hcf : cycleFactor { d with age_years := a } = cycleFactor d := rfl
    rw [hcf]
    dsimp only
    exact mul_le_mul_of_nonneg_right (mul_le_mul_of_nonneg_right hcycQ hfac) hdod
  have h3 : fastChargeDeg d ≤ fastChargeDeg { d with age_years := a } := by
    unfold fastChargeDeg
    dsimp only
    exact mul_le_mul_of_nonneg_right (mul_le_mul_of_nonneg_left hcycQ hfcr)
      (by norm_num)
  have h4 : thermalDeg d ≤ thermalDeg { d with age_years := a } := by
    unfold thermalDeg
    dsimp only
    split_ifs with ht1 ht2
    · exact mul_le_mul_of_nonneg_right
        (mul_le_mul_of_nonneg_left hage (by linarith)) (by norm_num)
    · exact mul_le_mul_of_nonneg_right
        (mul_le_mul_of_nonneg_left hage (by linarith)) (by norm_num)
    · exact le_refl 0
  have h5 : highMileageDeg d ≤ highMileageDeg { d with age_years := a } := by
    unfold highMileageDeg
    exact highMileTerm_mono hmil
  have hpre : healthPreClamp { d with age_years := a } ≤ healthPreClamp d := by
    unfold healthPreClamp
    dsimp only
    linarith
  exact ⟨hpre, max_le_max le_rfl (min_le_min le_rfl hpre)⟩

/-- C8, witness: concrete draws, age raised from 2 to 5. -/
theorem health_monotone_witness :
    (plainDraws.age_years ≤ 5 ∧ 0 ≤ plainDraws.calendar_rate) ∧
      (healthPreClamp { plainDraws with age_years := 5 } ≤
          healthPreClamp plainDraws ∧
        batteryHealth { plainDraws with age_years := 5 } ≤
          batteryHealth plainDraws) :=
  ⟨⟨by norm_num [plainDraws], by norm_num [plainDraws]⟩,
   health_monotone_in_age plainDraws 5 (by norm_num [plainDraws])
     (by norm_num [plainDraws]) (by norm_num [plainDraws])
     (by norm_num [plainDraws]) (by norm_num [plainDraws])⟩

/-! ## Claim C9: frame effect of `prepare_battery_health_data` -/

theorem getCol_setCol_ne (df : DataFrame) (n c : String) (col : List Val)
    (hc : c ≠ n) : getCol (setCol df n col) c = getCol df c := by
  induction df with
  | nil => simp [setCol, getCol, Ne.symm hc]
  | cons p rest ih =>
    obtain ⟨m, old⟩ := p
    by_cases hm : m = n
    · subst hm
      have hmc : ¬ (m = c) := fun e => hc e.symm
      simp [setCol, getCol, hmc]
    · simp only [setCol, if_neg hm, getCol]
      by_cases hmc : m = c
      · rw [if_pos hmc, if_pos hmc]
      · rw [if_neg hmc, if_neg hmc, ih]

theorem hasCol_setCol (df : DataFrame) (n : String) (col : List Val) :
    hasCol (setCol df n col) n = true := by
  induction df with
  | nil => simp [setCol, hasCol]
  | cons p rest ih =>
    obtain ⟨m, old⟩ := p
    by_cases hm : m = n
    · simp [setCol, hasCol, hm]
    · simp [setCol, hasCol, hm, ih]

/-- C9.  `prepare_battery_health_data` mutates the caller's DataFrame:
afterwards the frame has a `model_encoded` column, while every column
with a different name reads exactly as before. -/
theorem prepare_adds_model_encoded (df : DataFrame) :
    hasCol (prepare_battery_health_data df).df "model_encoded" = true ∧
      ∀ c : String, c ≠ "model_encoded" →
        getCol (prepare_battery_health_data df).df c = getCol df c := by
  constructor
  · exact hasCol_setCol df _ _
  · intro c hc
    exact getCol_setCol_ne df _ c _ hc

/-- C9, witness: the `model` column of a concrete frame is untouched. -/
theorem prepare_adds_model_encoded_witness :
    ("model" ≠ "model_encoded") ∧
      getCol (prepare_battery_health_data dfExample).df "model" =
        getCol dfExample "model" :=
  ⟨by decide, (prepare_adds_model_encoded dfExample).2 "model" (by decide)⟩

/-! ## Claim C10: training depends only on the filtered rows -/

/-- C10.  The repair-cost training pipelines read nothing outside the
`needs_repair == True` rows: two inputs agreeing on those rows produce
the same prepared data, the same fitted model and encoders
(`train_simplified_repair_model`), and the same converted artifacts
(`train_and_convert`), for every fit procedure. -/
theorem repair_training_filtered_only {M : Type}
    (fit : List (String × List (Option ℚ)) → List (Option ℚ) → M)
    (rows1 rows2 : List RepairRow)
    (h : rows1.filter (·.needs_repair) = rows2.filter (·.needs_repair)) :
    prepare_simplified_repair_data rows1 = prepare_simplified_repair_data rows2 ∧
      train_simplified_repair_model fit rows1 =
        train_simplified_repair_model fit rows2 ∧
      train_and_convert fit rows1 = train_and_convert fit rows2 := by
  have hp : prepare_simplified_repair_data rows1 =
      prepare_simplified_repair_data rows2 := by
    unfold prepare_simplified_repair_data
    rw [h]
  refine ⟨hp, ?_, ?_⟩
  · unfold train_simplified_repair_model
    rw [hp]
  · unfold train_and_convert
    rw [h]

/-- C10, witness: two concrete CSVs differing only in a
`needs_repair = False` row. -/
theorem repair_training_filtered_only_witness :
    ([repairRowA, repairRowB].filter (·.needs_repair) =
        [repairRowC, repairRowA].filter (·.needs_repair)) ∧
      (prepare_simplified_repair_data [repairRowA, repairRowB] =
          prepare_simplified_repair_data [repairRowC, repairRowA] ∧
        train_simplified_repair_model (fun X y => (X, y))
            [repairRowA, repairRowB] =
          train_simplified_repair_model (fun X y => (X, y))
            [repairRowC, repairRowA] ∧
        train_and_convert (fun X y => (X, y)) [repairRowA, repairRowB] =
          train_and_convert (fun X y => (X, y)) [repairRowC, repairRowA]) := by
  have hfilter : [repairRowA, repairRowB].filter (·.needs_repair) =
      [repairRowC, repairRowA].filter (·.needs_repair) := by
    simp [List.filter, repairRowA, repairRowB, repairRowC]
  exact ⟨hfilter,
    repair_training_filtered_only (fun X y => (X, y)) _ _ hfilter⟩

end EvShop
